import Mathlib

/-!
Verification of the `plugin` package initializer (`src/plugin/__init__.py`)
of the kicad-collab repository.

The module body is a docstring followed by two string-constant assignments:

    __version__ = "0.1.0"
    __author__ = "KiCad Collab Contributors"

We embed Python module evaluation shallowly: a module body is a list of
statements, executed over a namespace state, producing an effect trace and
possibly an error (`Except`).  The statement language includes the kinds of
top-level statements a Python module body could contain (imports, function
and class definitions, I/O calls, thread spawns, resource acquisition,
raising), so that the absence of each of these in the actual body is a
provable fact, not a modelling artifact.
-/

namespace KicadCollab

/-- A top-level statement of a Python module body, as relevant to this
module.  Only the first two constructors occur in the actual source; the
others exist so that statements the source could have contained, but does
not, are representable. -/
inductive Stmt where
  | docstring (s : String)
  | assign (name : String) (value : String)
  | importModule (modName : String)
  | funcDef (name : String)
  | classDef (name : String)
  | ioCall (desc : String)
  | spawnThread (desc : String)
  | acquireResource (desc : String)
  | raiseError (msg : String)
deriving DecidableEq, Repr

/-- The namespace state of a module during and after evaluation. -/
structure ModuleState where
  doc : Option String
  attrs : List (String × String)
  funcs : List String
  classes : List String
  imports : List String
deriving DecidableEq, Repr

/-- An observable effect of evaluating one statement. -/
inductive Effect where
  | bindDoc (s : String)
  | bindAttr (name : String) (value : String)
  | io (desc : String)
  | spawn (desc : String)
  | acquire (desc : String)
deriving DecidableEq, Repr

/-- Update an attribute binding in a namespace, preserving insertion order
(as a Python module dict does): overwrite in place if present, append
otherwise. -/
def setAttr : List (String × String) → String → String → List (String × String)
  | [], n, v => [(n, v)]
  | p :: ps, n, v => if p.1 = n then (n, v) :: ps else p :: setAttr ps n v

/-- Look up an attribute binding in a namespace. -/
def lookupAttr : List (String × String) → String → Option String
  | [], _ => none
  | p :: ps, n => if p.1 = n then some p.2 else lookupAttr ps n

/-- Attribute lookup on a module state (Python `getattr`). -/
def getattr (st : ModuleState) (n : String) : Option String :=
  lookupAttr st.attrs n

/-- Execute one statement: the next state and the effects it produces, or
an error if the statement raises. -/
def execStmt (st : ModuleState) : Stmt → Except String (ModuleState × List Effect)
  | .docstring d => .ok ({ st with doc := some d }, [.bindDoc d])
  | .assign n v => .ok ({ st with attrs := setAttr st.attrs n v }, [.bindAttr n v])
  | .importModule m => .ok ({ st with imports := st.imports ++ [m] }, [])
  | .funcDef n => .ok ({ st with funcs := st.funcs ++ [n] }, [])
  | .classDef n => .ok ({ st with classes := st.classes ++ [n] }, [])
  | .ioCall d => .ok (st, [.io d])
  | .spawnThread d => .ok (st, [.spawn d])
  | .acquireResource d => .ok (st, [.acquire d])
  | .raiseError m => .error m

/-- Execute a module body statement by statement, accumulating effects;
evaluation stops at the first error, as in Python. -/
def execBody (st : ModuleState) : List Stmt → Except String (ModuleState × List Effect)
  | [] => .ok (st, [])
  | s :: rest =>
    match execStmt st s with
    | .error e => .error e
    | .ok (st1, es1) =>
      match execBody st1 rest with
      | .error e => .error e
      | .ok (st2, es2) => .ok (st2, es1 ++ es2)

/-- The module docstring of `src/plugin/__init__.py`, verbatim. -/
def moduleDocstring : String :=
  "KiCad Collab Plugin.\n\nThis plugin generates interactive snapshots of KiCad schematics\nfor collaborative review via web browser.\n\nUsage:\n    Install via KiCad Plugin Manager or clone to KiCad plugins directory.\n    Access via Tools > KiCad Collab > Generate Snapshot\n"

/-- The value assigned to `__version__` in the source. -/
def __version__ : String := "0.1.0"

/-- The value assigned to `__author__` in the source. -/
def __author__ : String := "KiCad Collab Contributors"

/-- The body of `src/plugin/__init__.py`: a docstring and two string
assignments, in source order. -/
def moduleBody : List Stmt :=
  [ .docstring moduleDocstring,
    .assign "__version__" __version__,
    .assign "__author__" __author__ ]

/-- The fresh namespace a module evaluation starts from. -/
def initState : ModuleState := ⟨none, [], [], [], []⟩

/-- Load (import) the module starting from an arbitrary namespace state. -/
def loadModuleFrom (init : ModuleState) : Except String (ModuleState × List Effect) :=
  execBody init moduleBody

/-- Load (import) the module from the fresh namespace: the ordinary
Python import of `plugin`. -/
def loadModule : Except String (ModuleState × List Effect) :=
  loadModuleFrom initState

/-- `true` on the ok branch of an `Except`. -/
def exceptIsOk : Except String (ModuleState × List Effect) → Bool
  | .ok _ => true
  | .error _ => false

/-- Split a character list at every dot, keeping empty groups. -/
def splitDots : List Char → List (List Char)
  | [] => [[]]
  | c :: cs =>
    match splitDots cs with
    | [] => [[c]]
    | g :: gs => if c = '.' then [] :: g :: gs else (c :: g) :: gs

/-- A non-empty group of decimal digits. -/
def isDigitGroup (g : List Char) : Bool :=
  !g.isEmpty && g.all Char.isDigit

/-- A semantic-versioning string `MAJOR.MINOR.PATCH`: exactly three
dot-separated non-empty decimal-digit groups. -/
def isSemVer (s : String) : Bool :=
  match splitDots s.toList with
  | [a, b, c] => isDigitGroup a && isDigitGroup b && isDigitGroup c
  | _ => false

/-- The numeric value of a decimal-digit group. -/
def digitsToNat (g : List Char) : Nat :=
  g.foldl (fun acc c => acc * 10 + (c.toNat - 48)) 0

/-- The MAJOR component of a version string, when its first dot-separated
group is a non-empty digit group. -/
def majorOf (s : String) : Option Nat :=
  match splitDots s.toList with
  | g :: _ => if isDigitGroup g then some (digitsToNat g) else none
  | [] => none

/-- The post-load operations the module offers to the host: attribute
reads only, since it defines no functions or classes. -/
inductive PostLoadOp where
  | read (name : String)
deriving DecidableEq, Repr

/-- Apply one post-load operation: a read returns the attribute value and
leaves the state unchanged. -/
def applyOp (st : ModuleState) : PostLoadOp → ModuleState × Option String
  | .read n => (st, getattr st n)

/-- Run a sequence of post-load operations, threading the state. -/
def runOps (st : ModuleState) : List PostLoadOp → ModuleState
  | [] => st
  | op :: ops => runOps (applyOp st op).1 ops

/-- A statement that raises. -/
def canFail : Stmt → Bool
  | .raiseError _ => true
  | _ => false

/-- A statement that binds a callable (function or class definition). -/
def definesCallable : Stmt → Bool
  | .funcDef _ => true
  | .classDef _ => true
  | _ => false

/-- An effect that is a pure namespace binding (no I/O, no thread, no
resource). -/
def isBinding : Effect → Bool
  | .bindDoc _ => true
  | .bindAttr _ _ => true
  | _ => false

/-- Evaluating the module body from any starting namespace yields this
final namespace: docstring bound, the two constants bound, everything
else as it started. -/
def finalState (init : ModuleState) : ModuleState :=
  { init with
    doc := some moduleDocstring
    attrs := setAttr (setAttr init.attrs "__version__" __version__) "__author__" __author__ }

/-- The effect trace of evaluating the module body. -/
def finalEffects : List Effect :=
  [ .bindDoc moduleDocstring,
    .bindAttr "__version__" __version__,
    .bindAttr "__author__" __author__ ]

theorem loadModuleFrom_eq (init : ModuleState) :
    loadModuleFrom init = .ok (finalState init, finalEffects) := rfl

theorem runOps_id (ops : List PostLoadOp) (st : ModuleState) :
    runOps st ops = st := by
  induction ops generalizing st with
  | nil => rfl
  | cons op ops ih => cases op with | read n => exact ih st

theorem lookupAttr_setAttr_same (attrs : List (String × String)) (n v : String) :
    lookupAttr (setAttr attrs n v) n = some v := by
  induction attrs with
  | nil => simp [setAttr, lookupAttr]
  | cons p ps ih =>
    by_cases h : p.1 = n
    · simp [setAttr, lookupAttr, h]
    · simp [setAttr, lookupAttr, h, ih]

theorem lookupAttr_setAttr_other (attrs : List (String × String)) (n v m : String)
    (hmn : m ≠ n) : lookupAttr (setAttr attrs n v) m = lookupAttr attrs m := by
  have hnm : n ≠ m := Ne.symm hmn
  induction attrs with
  | nil => simp [setAttr, lookupAttr, hnm]
  | cons p ps ih =>
    by_cases h : p.1 = n
    · simp [setAttr, lookupAttr, h, hnm]
    · simp [setAttr, lookupAttr, h, ih]

theorem getattr_finalState_version (init : ModuleState) :
    getattr (finalState init) "__version__" = some __version__ := by
  show lookupAttr (setAttr (setAttr init.attrs "__version__" __version__)
      "__author__" __author__) "__version__" = some __version__
  rw [lookupAttr_setAttr_other _ _ _ _ (by decide), lookupAttr_setAttr_same]

theorem getattr_finalState_author (init : ModuleState) :
    getattr (finalState init) "__author__" = some __author__ := by
  show lookupAttr (setAttr (setAttr init.attrs "__version__" __version__)
      "__author__" __author__) "__author__" = some __author__
  rw [lookupAttr_setAttr_same]

/-- A statement that imports another module. -/
def isImport : Stmt → Bool
  | .importModule _ => true
  | _ => false

/-- C1: the module-level constant `__version__` is a string matching a
semantic-versioning pattern MAJOR.MINOR.PATCH, i.e. three dot-separated
non-negative decimal integers. -/
theorem c1_version_is_semver : isSemVer __version__ = true := by decide

/-- C2: both `__version__` and `__author__` are non-empty strings, and this
holds in every state reachable after load: after any sequence of post-load
operations, both attributes still map to non-empty strings. -/
theorem c2_nonempty_in_all_reachable (ops : List PostLoadOp) :
    ∃ st effs, loadModule = Except.ok (st, effs) ∧
      (∃ v, getattr (runOps st ops) "__version__" = some v ∧ v ≠ "") ∧
      (∃ a, getattr (runOps st ops) "__author__" = some a ∧ a ≠ "") := by
  refine ⟨finalState initState, finalEffects, rfl, ?_, ?_⟩ <;> rw [runOps_id]
  · exact ⟨__version__, getattr_finalState_version initState, by decide⟩
  · exact ⟨__author__, getattr_finalState_author initState, by decide⟩

/-- C2 witness: the reachable-state property instantiated at a concrete
sequence of post-load reads. -/
theorem c2_witness :
    ∃ st effs, loadModule = Except.ok (st, effs) ∧
      (∃ v, getattr (runOps st [PostLoadOp.read "__version__"]) "__version__"
        = some v ∧ v ≠ "") ∧
      (∃ a, getattr (runOps st [PostLoadOp.read "__version__"]) "__author__"
        = some a ∧ a ≠ "") :=
  c2_nonempty_in_all_reachable [PostLoadOp.read "__version__"]

/-- C3: importing the module always succeeds: from every starting
namespace, evaluation of the module body returns the ok branch. -/
theorem c3_load_always_succeeds (init : ModuleState) :
    exceptIsOk (loadModuleFrom init) = true := rfl

/-- C3 witness: loading from the fresh namespace succeeds. -/
theorem c3_witness : exceptIsOk (loadModuleFrom initState) = true :=
  c3_load_always_succeeds initState

/-- C4: after a successful load, the module exposes both `__version__` and
`__author__`: both attribute lookups succeed, returning some string. -/
theorem c4_exposes_both_attrs :
    ∃ st effs, loadModule = Except.ok (st, effs) ∧
      (getattr st "__version__").isSome = true ∧
      (getattr st "__author__").isSome = true :=
  ⟨finalState initState, finalEffects, rfl, rfl, rfl⟩

/-- C5: the module's entire public surface is exactly a docstring and the
two metadata constants: evaluation binds no other names, defines no
functions or classes, performs no imports, and its body consists solely of
the docstring and the two assignments. -/
theorem c5_surface_is_doc_and_two_constants :
    loadModule = Except.ok
      (⟨some moduleDocstring,
        [("__version__", __version__), ("__author__", __author__)], [], [], []⟩,
       finalEffects) ∧
    moduleBody.all (fun s => !definesCallable s) = true ∧
    moduleBody.all (fun s => ! isImport s) = true ∧
    moduleBody = [Stmt.docstring moduleDocstring,
      Stmt.assign "__version__" __version__,
      Stmt.assign "__author__" __author__] :=
  ⟨rfl, rfl, rfl, rfl⟩

/-- C6: `__version__` and `__author__` are set once at load time and are
immutable thereafter: the module binds no functions or classes that could
modify them, any sequence of post-load reads leaves the module state
unchanged, and every read of either attribute returns the same value. -/
theorem c6_immutable_after_load (ops : List PostLoadOp) :
    ∃ st effs, loadModule = Except.ok (st, effs) ∧
      st.funcs = [] ∧ st.classes = [] ∧
      runOps st ops = st ∧
      getattr (runOps st ops) "__version__" = some __version__ ∧
      getattr (runOps st ops) "__author__" = some __author__ := by
  refine ⟨finalState initState, finalEffects, rfl, rfl, rfl, runOps_id ops _, ?_, ?_⟩
    <;> rw [runOps_id]
  · exact getattr_finalState_version initState
  · exact getattr_finalState_author initState

/-- C6 witness: immutability instantiated at a concrete read sequence. -/
theorem c6_witness :
    ∃ st effs, loadModule = Except.ok (st, effs) ∧
      st.funcs = [] ∧ st.classes = [] ∧
      runOps st [PostLoadOp.read "__author__"] = st ∧
      getattr (runOps st [PostLoadOp.read "__author__"]) "__version__"
        = some __version__ ∧
      getattr (runOps st [PostLoadOp.read "__author__"]) "__author__"
        = some __author__ :=
  c6_immutable_after_load [PostLoadOp.read "__author__"]

/-- C7: the module defines no operation that can fail: its body binds no
callable (no function or class definition), contains no raising statement,
and module evaluation itself succeeds from every starting namespace. -/
theorem c7_no_fallible_operation :
    moduleBody.all (fun s => !definesCallable s) = true ∧
    moduleBody.all (fun s => !canFail s) = true ∧
    (∀ init : ModuleState, exceptIsOk (loadModuleFrom init) = true) :=
  ⟨rfl, rfl, fun _ => rfl⟩

/-- C8: module evaluation performs no I/O, spawns no thread and acquires
no resource: from every starting namespace the effect trace is exactly the
binding of the docstring and the two string constants, and every effect in
it is a pure namespace binding. -/
theorem c8_effects_only_bindings (init : ModuleState) :
    ∃ st, loadModuleFrom init = Except.ok
        (st, [Effect.bindDoc moduleDocstring,
              Effect.bindAttr "__version__" __version__,
              Effect.bindAttr "__author__" __author__]) ∧
      ([Effect.bindDoc moduleDocstring,
        Effect.bindAttr "__version__" __version__,
        Effect.bindAttr "__author__" __author__].all isBinding) = true :=
  ⟨finalState init, rfl, rfl⟩

/-- C8 witness: the effect trace of the ordinary load from the fresh
namespace. -/
theorem c8_witness :
    ∃ st, loadModuleFrom initState = Except.ok
        (st, [Effect.bindDoc moduleDocstring,
              Effect.bindAttr "__version__" __version__,
              Effect.bindAttr "__author__" __author__]) ∧
      ([Effect.bindDoc moduleDocstring,
        Effect.bindAttr "__version__" __version__,
        Effect.bindAttr "__author__" __author__].all isBinding) = true :=
  c8_effects_only_bindings initState

/-- C9: after load, `__version__` equals exactly "0.1.0" (whose MAJOR
component is 0) and `__author__` equals exactly
"KiCad Collab Contributors". -/
theorem c9_exact_metadata_values :
    ∃ st effs, loadModule = Except.ok (st, effs) ∧
      getattr st "__version__" = some "0.1.0" ∧
      getattr st "__author__" = some "KiCad Collab Contributors" ∧
      majorOf "0.1.0" = some 0 :=
  ⟨finalState initState, finalEffects, rfl, rfl, rfl, rfl⟩

/-- C10: module loading is deterministic: loads from any two starting
namespaces succeed and agree on the docstring, the effect trace, and the
values of `__version__` and `__author__`. -/
theorem c10_load_deterministic (i1 i2 : ModuleState) :
    ∃ s1 e1 s2 e2,
      loadModuleFrom i1 = Except.ok (s1, e1) ∧
      loadModuleFrom i2 = Except.ok (s2, e2) ∧
      s1.doc = s2.doc ∧ e1 = e2 ∧
      getattr s1 "__version__" = getattr s2 "__version__" ∧
      getattr s1 "__author__" = getattr s2 "__author__" := by
  refine ⟨finalState i1, finalEffects, finalState i2, finalEffects,
    rfl, rfl, rfl, rfl, ?_, ?_⟩
  · rw [getattr_finalState_version, getattr_finalState_version]
  · rw [getattr_finalState_author, getattr_finalState_author]

/-- C10 witness: determinism instantiated at the fresh namespace and a
namespace that already holds an unrelated binding. -/
theorem c10_witness :
    ∃ s1 e1 s2 e2,
      loadModuleFrom initState = Except.ok (s1, e1) ∧
      loadModuleFrom ⟨some "old", [("x", "y")], [], [], []⟩ = Except.ok (s2, e2) ∧
      s1.doc = s2.doc ∧ e1 = e2 ∧
      getattr s1 "__version__" = getattr s2 "__version__" ∧
      getattr s1 "__author__" = getattr s2 "__author__" :=
  c10_load_deterministic initState ⟨some "old", [("x", "y")], [], [], []⟩

end KicadCollab
